import Mathlib

/-!
Shallow embedding of the scan-orchestration server (`src/server/index.js`) of
the accessibility-analyzer repository, together with proofs that settle the
frozen claims C1..C10 about its specification.

The JavaScript server is a single Express process.  The components modelled
here, with the source lines they are transcribed from, are:

* string containment (`String.prototype.includes`) — used pervasively by the
  error-classification code;
* the browser pool (`browserPool`, lines 186-240);
* the rate limiter (`rateLimit`, lines 104-136);
* the report store (`/api/report` endpoints, lines 142-171 and 290-361);
* the `/api/scan` navigation fallback and error mapping (lines 429-479 and
  886-911);
* the audit pipeline of `/api/scan` (lines 549-649);
* the brand-colour luminance/contrast arithmetic (lines 668-687), modelled
  over the real numbers.

Effectful browser operations (Playwright calls, axe-core evaluation) are
modelled by outcome oracles: a function supplied as a parameter that says,
for each external call, whether it succeeds and with which payload.  The
control flow around those calls is transcribed from the source.
-/

/-! ## String containment (JavaScript `String.prototype.includes`) -/

/-- Does `hay` start with `needle`? (character-by-character prefix test). -/
def headMatches : List Char → List Char → Bool
  | [], _ => true
  | _ :: _, [] => false
  | c :: cs, d :: ds => c = d && headMatches cs ds

/-- Does the character list `hay` contain `needle` as a contiguous run? -/
def hasSub (needle : List Char) : List Char → Bool
  | [] => needle.isEmpty
  | c :: t => headMatches needle (c :: t) || hasSub needle t

/-- JavaScript `hay.includes(needle)`: substring containment on strings. -/
def strIncludes (hay needle : String) : Bool :=
  hasSub needle.data hay.data

theorem hasSub_append_right (needle l₁ l₂ : List Char)
    (h : hasSub needle l₂ = true) : hasSub needle (l₁ ++ l₂) = true := by
  induction l₁ with
  | nil => simpa using h
  | cons c t ih =>
      simp only [List.cons_append, hasSub, Bool.or_eq_true]
      exact Or.inr ih

theorem strIncludes_append_right (a b needle : String)
    (h : strIncludes b needle = true) : strIncludes (a ++ b) needle = true := by
  unfold strIncludes at *
  rw [String.data_append]
  exact hasSub_append_right _ _ _ h

/-! ## Browser pool (`browserPool`, src/server/index.js lines 186-240)

A live browser is identified by a natural number; the pool's `browsers`
JavaScript `Set` becomes a `Finset ℕ`.  `createBrowser` either refuses
(returning no session, the unchanged live set, and `launched = false`) or
launches a fresh browser (`launched = true`) and adds it to the live set.
`closeBrowser` mirrors the `has`-guarded delete-then-close. -/

/-- `CONFIG.MAX_CONCURRENT_BROWSERS` (line 34). -/
def MAX_CONCURRENT_BROWSERS : Nat := 5

/-- The message of the error thrown by `createBrowser` on saturation (line 192). -/
def poolExhaustedMessage : String :=
  "Maximum concurrent browsers reached. Please try again later."

/-- `browserPool.createBrowser` (lines 190-223): if the live set has reached
the ceiling, throw (no launch, live set untouched); otherwise launch a fresh
browser and add it.  Returns (acquired session if any, new live set, whether
a browser process was launched). -/
def createBrowser (pool : Finset Nat) (fresh : Nat) :
    Option Nat × Finset Nat × Bool :=
  if MAX_CONCURRENT_BROWSERS ≤ pool.card then
    (none, pool, false)
  else
    (some fresh, insert fresh pool, true)

/-- `browserPool.closeBrowser` (lines 225-234): only if the browser is still a
member of the live set is it removed and its process closed.  Returns the new
live set and whether `browser.close()` was invoked.  The background sweep
(lines 215-220) force-closes through this same function. -/
def closeBrowser (pool : Finset Nat) (b : Nat) : Finset Nat × Bool :=
  if b ∈ pool then (pool.erase b, true) else (pool, false)

/-! ## Rate limiter (`rateLimit`, src/server/index.js lines 104-136)

One client identity's window is the list of its admitted request timestamps
(milliseconds, as `Int`).  The middleware prunes the window, rejects with 429
when the pruned count reaches the ceiling (leaving the stored window as it
was), and otherwise appends the current timestamp and stores the pruned
window back. -/

/-- `RATE_LIMIT.windowMs` (line 107). -/
def RATE_LIMIT_windowMs : Int := 15 * 60 * 1000

/-- `RATE_LIMIT.maxRequests` (line 108). -/
def RATE_LIMIT_maxRequests : Nat := 50

/-- `requests.filter(time => time > windowStart)` with
`windowStart = now - RATE_LIMIT.windowMs` (lines 115, 123). -/
def pruneWindow (w : List Int) (now : Int) : List Int :=
  w.filter (fun t => now - RATE_LIMIT_windowMs < t)

/-- One admission check for one identity (lines 121-135): returns the
decision and the window stored for that identity afterwards.  On rejection
the middleware returns before `push`/`set`, so the stored window is the
original one. -/
def rateLimitStep (w : List Int) (now : Int) : Bool × List Int :=
  let valid := pruneWindow w now
  if RATE_LIMIT_maxRequests ≤ valid.length then (false, w)
  else (true, valid ++ [now])

/-- The middleware's outward behaviour: `some 429` when rejected (lines
125-130), `none` (fall through to `next()`) when admitted. -/
def rateLimitResponse (w : List Int) (now : Int) : Option Nat × List Int :=
  let r := rateLimitStep w now
  (if r.1 then none else some 429, r.2)

/-- Fold `rateLimitStep` over a sequence of request times, collecting the
decisions and the final stored window. -/
def runRate (w : List Int) : List Int → List Bool × List Int
  | [] => ([], w)
  | now :: rest =>
      let r := rateLimitStep w now
      let k := runRate r.2 rest
      (r.1 :: k.1, k.2)

/-! ## Navigation failure classification (src/server/index.js lines 465-479)

When all three `page.goto` strategies fail, the catch block inspects the
underlying error message with `String.prototype.includes` and re-throws a
new error whose message is one of six templates.  The outer `/api/scan`
catch (lines 886-911) picks the HTTP status by inspecting that re-thrown
message, again by substring. -/

/-- The six navigation-failure classes of the spec. -/
inductive NavKind
  | timeout
  | dnsNotFound
  | connectionRefused
  | tlsError
  | redirectLoop
  | other
deriving DecidableEq

/-- Classification of the underlying network error message (lines 466-476). -/
def classifyNav (msg : String) : NavKind :=
  if strIncludes msg "timeout" || strIncludes msg "Timeout" then .timeout
  else if strIncludes msg "net::ERR_NAME_NOT_RESOLVED" then .dnsNotFound
  else if strIncludes msg "net::ERR_CONNECTION_REFUSED" then .connectionRefused
  else if strIncludes msg "net::ERR_CERT_" then .tlsError
  else if strIncludes msg "net::ERR_TOO_MANY_REDIRECTS" then .redirectLoop
  else .other

/-- The message of the error re-thrown for a navigation failure, by class
(lines 466-478); `url` is the scanned URL and `msg` the underlying error
message. -/
def navErrorMessage (url msg : String) : String :=
  match classifyNav msg with
  | .timeout =>
      "Website \"" ++ (url ++ "\" took too long to load (tried multiple loading strategies). The site may be slow or having issues. Please try again later.")
  | .dnsNotFound =>
      "Website \"" ++ (url ++ "\" not found. Please check the URL and try again.")
  | .connectionRefused =>
      "Connection to \"" ++ (url ++ "\" was refused. The website may be down or blocking automated access.")
  | .tlsError =>
      "SSL certificate error for \"" ++ (url ++ "\". The website may have security issues.")
  | .redirectLoop =>
      "Too many redirects when accessing \"" ++ (url ++ "\". The website configuration may have issues.")
  | .other =>
      "Failed to load website \"" ++ (url ++ ("\": " ++ msg))

/-- The HTTP status chosen by the `/api/scan` catch block for a scan-ending
error with message `msg` (lines 886-904). -/
def scanErrorStatus (msg : String) : Nat :=
  if strIncludes msg "timeout" || strIncludes msg "took too long" then 408
  else if strIncludes msg "not found" || strIncludes msg "ERR_NAME_NOT_RESOLVED" then 404
  else if strIncludes msg "refused" || strIncludes msg "ERR_CONNECTION_REFUSED" then 503
  else if strIncludes msg "Maximum concurrent browsers" then 503
  else if strIncludes msg "Invalid" then 400
  else 500

/-- The keys of the JSON body sent by the `/api/scan` catch block
(lines 906-911); audit results such as `accessibility` are never among them. -/
def scanErrorBodyKeys : List String :=
  ["error", "details", "timestamp", "scanDuration"]

/-! ## Navigation fallback (src/server/index.js lines 429-463)

The handler tries `page.goto` with `networkidle` (45s), then on failure
`domcontentloaded` (30s), then on failure `load` (20s); the first success
wins.  After any success `page.waitForTimeout(2000)` runs before the audit
phase.  Whether a given `goto` attempt would succeed is an oracle
`ok : WaitStrategy → Bool`. -/

/-- The three `waitUntil` conditions, in decreasing strictness. -/
inductive WaitStrategy
  | networkidle
  | domcontentloaded
  | loadEvent
deriving DecidableEq

/-- The order in which the handler attempts the strategies. -/
def strategyOrder : List WaitStrategy :=
  [.networkidle, .domcontentloaded, .loadEvent]

/-- The `timeout` option passed to `page.goto` for each strategy
(lines 437, 447, 456). -/
def gotoTimeoutMs : WaitStrategy → Nat
  | .networkidle => 45000
  | .domcontentloaded => 30000
  | .loadEvent => 20000

/-- The `goto` attempts actually performed, transcribing the nested
try/catch of lines 434-460. -/
def navAttempts (ok : WaitStrategy → Bool) : List WaitStrategy :=
  if ok .networkidle then [.networkidle]
  else if ok .domcontentloaded then [.networkidle, .domcontentloaded]
  else [.networkidle, .domcontentloaded, .loadEvent]

/-- The strategy that won, if any. -/
def navWinner (ok : WaitStrategy → Bool) : Option WaitStrategy :=
  if ok .networkidle then some .networkidle
  else if ok .domcontentloaded then some .domcontentloaded
  else if ok .loadEvent then some .loadEvent
  else none

/-- Observable events of the navigation-plus-audit part of one scan. -/
inductive ScanEvent
  | goto (s : WaitStrategy) (timeoutMs : Nat)
  | settle (ms : Nat)
  | audit (kind : String)
deriving DecidableEq

/-- Event trace of the handler from first `goto` to the audit phase,
transcribing lines 429-463 followed by the audit sections: each performed
attempt, then — only if navigation succeeded — the fixed
`waitForTimeout(2000)` settle delay (line 463) and then the audits. -/
def scanNavEvents (ok : WaitStrategy → Bool) (audits : List String) :
    List ScanEvent :=
  if ok .networkidle then
    .goto .networkidle 45000 :: .settle 2000 :: audits.map .audit
  else if ok .domcontentloaded then
    .goto .networkidle 45000 :: .goto .domcontentloaded 30000 ::
      .settle 2000 :: audits.map .audit
  else if ok .loadEvent then
    .goto .networkidle 45000 :: .goto .domcontentloaded 30000 ::
      .goto .loadEvent 20000 :: .settle 2000 :: audits.map .audit
  else
    [.goto .networkidle 45000, .goto .domcontentloaded 30000,
     .goto .loadEvent 20000]

/-! ## Audit pipeline (src/server/index.js lines 549-649)

Each external evaluation (a Playwright interaction followed by an axe-core
run, or the one-shot structural axe-core run) is an oracle returning either
an opaque result payload (a `Nat`) or a thrown error message.  The control
flow around the oracles — per-audit try/catch, per-action validation,
try/catch and `continue` — is transcribed from the source. -/

/-- One dynamic action from the request body.  JavaScript's falsy test
`!action.type` / `!action.selector` / `!action.value` treats both a missing
field and the empty string as absent; both are modelled by `""`. -/
structure DynAction where
  type : String
  selector : String
  value : String
deriving DecidableEq

/-- One entry pushed onto `results.dynamicContent`: either
`{action, issues}` or `{action, error}`. -/
inductive DynEntry
  | ok (action : DynAction) (issues : Nat)
  | err (action : DynAction) (message : String)
deriving DecidableEq

/-- One iteration of the dynamic-content loop (lines 589-646) for one
action: structure validation, the `switch` on the action type, the thrown
errors of the `type` case and the `default` case, and the per-action catch
that records `{action, error}`.  `exec a` is the outcome of performing the
interaction, waiting, and re-running axe-core. -/
def runAction (exec : DynAction → Except String Nat) (a : DynAction) :
    DynEntry :=
  if a.type = "" ∨ a.selector = "" then
    .err a "Invalid action: missing type or selector"
  else if a.type = "click" ∨ a.type = "focus" ∨ a.type = "hover" then
    match exec a with
    | .ok r => .ok a r
    | .error e => .err a e
  else if a.type = "type" then
    if a.value = "" then .err a "Type action requires a value"
    else
      match exec a with
      | .ok r => .ok a r
      | .error e => .err a e
  else .err a ("Unsupported action type: " ++ a.type)

/-- The dynamic-content loop (lines 589-646): every iteration pushes exactly
one entry (validation failure pushes and `continue`s, success pushes, the
catch pushes), so the loop is a map over the action list. -/
def runDynamicContent (exec : DynAction → Except String Nat)
    (actions : List DynAction) : List DynEntry :=
  actions.map (runAction exec)

/-- The `accessibility` slot of the result map: the audit payload, or the
error payload built by the catch of lines 575-581. -/
inductive AuditSlot
  | ok (payload : Nat)
  | err (message : String)
deriving DecidableEq

/-- The structural accessibility audit (lines 550-582): a successful
axe-core run fills the slot with its payload; a thrown error is caught and
recorded as an error payload in the same slot. -/
def runAccessibility (accExec : Except String Nat) : AuditSlot :=
  match accExec with
  | .ok p => .ok p
  | .error e => .err ("Failed to run accessibility audit: " ++ e)

/-- The slots of the scan result relevant to the audit-isolation claim. -/
structure AuditResults where
  accessibility : Option AuditSlot
  dynamicContent : Option (List DynEntry)
deriving DecidableEq

/-- The audit phase of `/api/scan` for the `accessibility` and
`dynamic-content` audits (lines 549-649): each runs only when requested
(the dynamic audit additionally requires a non-empty action list, line 585),
and each is wrapped so that failures land in its own slot.  The phase is a
total function: no audit outcome makes it abort. -/
def auditPhase (audits : List String) (accExec : Except String Nat)
    (exec : DynAction → Except String Nat) (dynamicActions : List DynAction) :
    AuditResults where
  accessibility :=
    if "accessibility" ∈ audits then some (runAccessibility accExec) else none
  dynamicContent :=
    if "dynamic-content" ∈ audits ∧ dynamicActions ≠ [] then
      some (runDynamicContent exec dynamicActions)
    else none

/-! ## Report store (src/server/index.js lines 142-171 and 290-361)

Report objects are JSON objects, modelled as insertion-ordered association
lists of key/value pairs; values are strings or integers (the parts of JSON
the endpoints touch).  `objSet` models spread-with-override
(`{...report, k: v}` keeps every other key and sets `k`); `objRemove`
models destructuring a key away. -/

/-- A JSON scalar as used by the report endpoints. -/
inductive JVal
  | str (s : String)
  | num (n : Int)
deriving DecidableEq

/-- A JSON object: insertion-ordered key/value pairs, keys unique. -/
abbrev Obj := List (String × JVal)

/-- Set key `k` to `v`, replacing any previous binding. -/
def objSet (o : Obj) (k : String) (v : JVal) : Obj :=
  o.filter (fun p => p.1 != k) ++ [(k, v)]

/-- Remove key `k` (JavaScript `const {k, ...rest} = o`). -/
def objRemove (o : Obj) (k : String) : Obj :=
  o.filter (fun p => p.1 != k)

/-- Look up key `k`. -/
def objGet (o : Obj) (k : String) : Option JVal :=
  (o.find? (fun p => p.1 == k)).map (·.2)

/-- The `reports` map: generated id → stored object. -/
abbrev ReportStore := List (String × Obj)

/-- `reports.set(id, r)`. -/
def storeSet (m : ReportStore) (id : String) (r : Obj) : ReportStore :=
  m.filter (fun p => p.1 != id) ++ [(id, r)]

/-- `reports.get(id)`. -/
def storeGet (m : ReportStore) (id : String) : Option Obj :=
  (m.find? (fun p => p.1 == id)).map (·.2)

/-- `CONFIG.MAX_REPORT_AGE` (line 36), in milliseconds. -/
def MAX_REPORT_AGE : Int := 24 * 60 * 60 * 1000

/-- `POST /api/report` storage step (lines 314-326): build
`reportWithMetadata` by spreading the client report and overriding `id`,
`timestamp`, `userAgent`, `ip`, then `reports.set(id, ...)`.  Validation
(object shape, required `url`, URL syntax, lines 294-312) precedes this and
rejects with 400; `report` here is an accepted report.  Returns the new
store and the stored object. -/
def postReport (m : ReportStore) (report : Obj) (id : String) (now : Int)
    (ua ip : String) : ReportStore × Obj :=
  let reportWithMetadata :=
    objSet (objSet (objSet (objSet report "id" (.str id))
      "timestamp" (.num now)) "userAgent" (.str ua)) "ip" (.str ip)
  (storeSet m id reportWithMetadata, reportWithMetadata)

/-- The metadata stripping of `GET /api/report/:id` (line 352):
`const { timestamp, userAgent, ip, ...cleanReport } = report`. -/
def cleanReport (r : Obj) : Obj :=
  objRemove (objRemove (objRemove r "timestamp") "userAgent") "ip"

/-- `GET /api/report/:id` (lines 334-361): 404 when the id is absent
(unknown or already swept), otherwise 200 with the metadata-stripped
object. -/
def getReportEndpoint (m : ReportStore) (id : String) : Nat × Option Obj :=
  match storeGet m id with
  | none => (404, none)
  | some r => (200, some (cleanReport r))

/-- The stored object's `timestamp` field, when it is a number. -/
def reportTimestamp (r : Obj) : Option Int :=
  match objGet r "timestamp" with
  | some (.num t) => some t
  | _ => none

/-- The age-eviction phase of the periodic report sweep (lines 150-155):
delete every entry whose stored timestamp is older than
`CONFIG.MAX_REPORT_AGE`.  (The subsequent capacity eviction of lines
162-170 is not needed by any claim.) -/
def sweepReports (m : ReportStore) (now : Int) : ReportStore :=
  m.filter (fun p =>
    match reportTimestamp p.2 with
    | some t => !(MAX_REPORT_AGE < now - t)
    | none => true)

/-! ## Brand-colour luminance and contrast (src/server/index.js lines 668-687)

The in-page helpers `luminance` and `contrast` compute the WCAG relative
luminance (per-channel sRGB-to-linear gamma correction, weighted
0.2126/0.7152/0.0722) and the contrast ratio `(max+0.05)/(min+0.05)`.
JavaScript numbers are modelled by real numbers. -/

/-- The per-channel sRGB-to-linear map applied inside `luminance`
(lines 669-672) to a channel already divided by 255. -/
noncomputable def srgbLin (v : ℝ) : ℝ :=
  if v ≤ 0.03928 then v / 12.92 else ((v + 0.055) / 1.055) ^ (2.4 : ℝ)

/-- `luminance(r, g, b)` (lines 668-674) on 0..255 channel values. -/
noncomputable def luminance (r g b : ℝ) : ℝ :=
  srgbLin (r / 255) * 0.2126 + srgbLin (g / 255) * 0.7152 +
    srgbLin (b / 255) * 0.0722

/-- `contrast(rgb1, rgb2)` (lines 676-687) on two parsed RGB triples:
`(max(l1,l2)+0.05)/(min(l1,l2)+0.05)`. -/
noncomputable def contrastOf (c₁ c₂ : ℝ × ℝ × ℝ) : ℝ :=
  let l₁ := luminance c₁.1 c₁.2.1 c₁.2.2
  let l₂ := luminance c₂.1 c₂.2.1 c₂.2.2
  (max l₁ l₂ + 0.05) / (min l₁ l₂ + 0.05)

/-- The RGB triple of white, as parsed from `rgb(255, 255, 255)`. -/
def whiteRGB : ℝ × ℝ × ℝ := (255, 255, 255)

/-- The RGB triple of black, as parsed from `rgb(0, 0, 0)`. -/
def blackRGB : ℝ × ℝ × ℝ := (0, 0, 0)

/-! ## Claim theorems -/

/-- C1: when the live-session count equals the ceiling (5), `createBrowser`
fails with the pool-exhausted error without launching a browser and with the
live set unchanged, and the `/api/scan` catch block maps that error's
message to HTTP 503. -/
theorem pool_exhausted_no_launch (pool : Finset Nat) (fresh : Nat)
    (h : pool.card = MAX_CONCURRENT_BROWSERS) :
    createBrowser pool fresh = (none, pool, false) ∧
    scanErrorStatus poolExhaustedMessage = 503 := by
  constructor
  · unfold createBrowser
    rw [if_pos (le_of_eq h.symm)]
  · decide

/-- Witness for C1 at a saturated pool of five live browsers. -/
theorem pool_exhausted_no_launch_witness :
    ({0, 1, 2, 3, 4} : Finset Nat).card = MAX_CONCURRENT_BROWSERS ∧
    (createBrowser {0, 1, 2, 3, 4} 9 = (none, {0, 1, 2, 3, 4}, false) ∧
      scanErrorStatus poolExhaustedMessage = 503) :=
  ⟨by decide, pool_exhausted_no_launch {0, 1, 2, 3, 4} 9 (by decide)⟩

/-- C7: `closeBrowser` is idempotent — a second release of the same session
finds it absent from the live set, changes nothing and does not invoke the
underlying `browser.close()`, so releasing twice equals releasing once.
The background sweep closes through the same function, so a release after a
sweep is the same no-op. -/
theorem release_idempotent (pool : Finset Nat) (b : Nat) :
    closeBrowser (closeBrowser pool b).1 b = ((closeBrowser pool b).1, false) := by
  by_cases h : b ∈ pool
  · simp [closeBrowser, h, Finset.not_mem_erase]
  · simp [closeBrowser, h]

/-- C9: a rejected admission check responds 429 and leaves the identity's
stored window exactly as it was — the middleware returns before appending
the current timestamp or writing the pruned list back. -/
theorem rate_reject_leaves_window (w : List Int) (now : Int)
    (h : RATE_LIMIT_maxRequests ≤ (pruneWindow w now).length) :
    rateLimitResponse w now = (some 429, w) := by
  simp [rateLimitResponse, rateLimitStep, if_pos h]

/-- Witness for C9 at a window already holding 50 fresh timestamps. -/
theorem rate_reject_leaves_window_witness :
    RATE_LIMIT_maxRequests ≤ (pruneWindow (List.replicate 50 (0 : Int)) 0).length ∧
    rateLimitResponse (List.replicate 50 (0 : Int)) 0
      = (some 429, List.replicate 50 (0 : Int)) :=
  ⟨by decide, rate_reject_leaves_window _ _ (by decide)⟩

theorem pruneWindow_replicate_self (k : Nat) (t : Int) :
    pruneWindow (List.replicate k t) t = List.replicate k t := by
  unfold pruneWindow
  rw [List.filter_replicate, if_pos]
  simp only [decide_eq_true_eq, RATE_LIMIT_windowMs]
  omega

theorem rateLimitStep_replicate_lt (k : Nat) (t : Int) (hk : k < 50) :
    rateLimitStep (List.replicate k t) t = (true, List.replicate (k + 1) t) := by
  simp only [rateLimitStep, pruneWindow_replicate_self, List.length_replicate]
  rw [if_neg (by simp only [RATE_LIMIT_maxRequests]; omega), ← List.replicate_succ']

theorem rateLimitStep_replicate_full (t : Int) :
    rateLimitStep (List.replicate 50 t) t = (false, List.replicate 50 t) := by
  simp only [rateLimitStep, pruneWindow_replicate_self, List.length_replicate]
  rw [if_pos (by simp [RATE_LIMIT_maxRequests])]

theorem runRate_append (w : List Int) (l₁ l₂ : List Int) :
    runRate w (l₁ ++ l₂)
      = ((runRate w l₁).1 ++ (runRate (runRate w l₁).2 l₂).1,
         (runRate (runRate w l₁).2 l₂).2) := by
  induction l₁ generalizing w with
  | nil => simp [runRate]
  | cons a l ih => simp [runRate, ih]

theorem runRate_replicate (t : Int) :
    ∀ (n k : Nat), k + n ≤ 50 →
      runRate (List.replicate k t) (List.replicate n t)
        = (List.replicate n true, List.replicate (k + n) t) := by
  intro n
  induction n with
  | zero => intro k _; simp [runRate]
  | succ m ih =>
      intro k h
      rw [List.replicate_succ]
      simp only [runRate]
      rw [rateLimitStep_replicate_lt k t (by omega), ih (k + 1) (by omega)]
      have hkm : k + 1 + m = k + (m + 1) := by omega
      simp [List.replicate_succ, hkm]

/-- C4: the limiter's sliding window is 15 minutes with ceiling 50, and for
one identity starting from an empty window, 51 checks inside one window
admit exactly the first 50 and reject the 51st (which stores nothing), while
a check one full window after the burst is admitted again. -/
theorem rate_sliding_window (t : Int) :
    runRate [] (List.replicate 51 t)
      = (List.replicate 50 true ++ [false], List.replicate 50 t) ∧
    (rateLimitStep (List.replicate 50 t) (t + RATE_LIMIT_windowMs)).1 = true ∧
    RATE_LIMIT_windowMs = 900000 ∧ RATE_LIMIT_maxRequests = 50 := by
  refine ⟨?_, ?_, rfl, rfl⟩
  · have h50 : runRate ([] : List Int) (List.replicate 50 t)
        = (List.replicate 50 true, List.replicate 50 t) := by
      simpa using runRate_replicate t 50 0 (by omega)
    have hsing : runRate (List.replicate 50 t) [t]
        = ([(rateLimitStep (List.replicate 50 t) t).1],
           (rateLimitStep (List.replicate 50 t) t).2) := rfl
    rw [show (51 : Nat) = 50 + 1 from rfl, List.replicate_succ', runRate_append, h50,
      hsing, rateLimitStep_replicate_full t]
  · have hp : pruneWindow (List.replicate 50 t) (t + RATE_LIMIT_windowMs) = [] := by
      unfold pruneWindow
      rw [List.filter_replicate, if_neg]
      simp only [decide_eq_true_eq, RATE_LIMIT_windowMs]
      omega
    simp only [rateLimitStep, hp, List.length_nil]
    rw [if_neg (by simp [RATE_LIMIT_maxRequests])]

theorem srgbLin_one : srgbLin 1 = 1 := by
  unfold srgbLin
  rw [if_neg (by norm_num), show ((1 : ℝ) + 0.055) / 1.055 = 1 by norm_num,
    Real.one_rpow]

theorem srgbLin_zero : srgbLin 0 = 0 := by
  unfold srgbLin
  rw [if_pos (by norm_num)]
  norm_num

theorem luminance_white : luminance 255 255 255 = 1 := by
  unfold luminance
  rw [show (255 : ℝ) / 255 = 1 by norm_num, srgbLin_one]
  norm_num

theorem luminance_black : luminance 0 0 0 = 0 := by
  unfold luminance
  rw [show (0 : ℝ) / 255 = 0 by norm_num, srgbLin_zero]
  norm_num

/-- C8: the brand-colour contrast helper, built on per-channel
sRGB-to-linear gamma correction with luminance weights
0.2126 / 0.7152 / 0.0722, satisfies the boundary equations
`contrast(white, white) = 1` and `contrast(white, black) = 21`. -/
theorem contrast_boundary :
    contrastOf whiteRGB whiteRGB = 1 ∧ contrastOf whiteRGB blackRGB = 21 := by
  constructor
  · simp only [contrastOf, whiteRGB, luminance_white, max_self, min_self]
    norm_num
  · simp only [contrastOf, whiteRGB, blackRGB, luminance_white, luminance_black]
    rw [show max (1 : ℝ) 0 = 1 by norm_num, show min (1 : ℝ) 0 = 0 by norm_num]
    norm_num

/-- C5: page load tries exactly the three wait strategies in order
network-quiescent (45s), DOM-ready (30s), load-event (20s); the first
success wins and the later strategies are not attempted; and after any
structural success a single fixed 2000 ms settle delay happens before any
audit runs. -/
theorem navigation_fallback (ok : WaitStrategy → Bool) (audits : List String) :
    (ok .networkidle = true →
        navAttempts ok = [.networkidle] ∧ navWinner ok = some .networkidle) ∧
    (ok .networkidle = false → ok .domcontentloaded = true →
        navAttempts ok = [.networkidle, .domcontentloaded] ∧
        navWinner ok = some .domcontentloaded) ∧
    (ok .networkidle = false → ok .domcontentloaded = false →
        ok .loadEvent = true →
        navAttempts ok = strategyOrder ∧ navWinner ok = some .loadEvent) ∧
    (gotoTimeoutMs .networkidle = 45000 ∧ gotoTimeoutMs .domcontentloaded = 30000 ∧
      gotoTimeoutMs .loadEvent = 20000) ∧
    ((navWinner ok).isSome = true →
        scanNavEvents ok audits
          = (navAttempts ok).map (fun s => ScanEvent.goto s (gotoTimeoutMs s))
            ++ ScanEvent.settle 2000 :: audits.map ScanEvent.audit) := by
  cases h₁ : ok .networkidle <;> cases h₂ : ok .domcontentloaded <;>
    cases h₃ : ok .loadEvent <;>
    simp [navAttempts, navWinner, scanNavEvents, strategyOrder, gotoTimeoutMs,
      h₁, h₂, h₃]

/-- A load outcome where only the DOM-ready strategy succeeds. -/
def okDomOnly : WaitStrategy → Bool
  | .domcontentloaded => true
  | _ => false

/-- Witness for C5: with only DOM-ready succeeding, the handler attempts
network-quiescent then DOM-ready, settles 2000 ms, and only then audits. -/
theorem navigation_fallback_witness :
    navAttempts okDomOnly = [.networkidle, .domcontentloaded] ∧
    scanNavEvents okDomOnly ["accessibility"]
      = (navAttempts okDomOnly).map (fun s => ScanEvent.goto s (gotoTimeoutMs s))
        ++ ScanEvent.settle 2000 :: (["accessibility"].map ScanEvent.audit) :=
  ⟨((navigation_fallback okDomOnly ["accessibility"]).2.1 rfl rfl).1,
    (navigation_fallback okDomOnly ["accessibility"]).2.2.2.2 (by decide)⟩

/-- C3: each requested audit runs and fails independently — a failed
accessibility audit lands as an error payload in its own slot and never
aborts the phase; slots do not depend on each other's outcomes; the dynamic
loop records one entry per action, each invalid action as `{action, error}`,
each entry depending only on its own action, and a valid action that
executes successfully yields `{action, issues}` whatever the other actions
did. -/
theorem audit_isolation (audits : List String) (accExec : Except String Nat)
    (exec : DynAction → Except String Nat) (actions : List DynAction) :
    ("accessibility" ∈ audits → ∀ e, accExec = .error e →
        (auditPhase audits accExec exec actions).accessibility
          = some (.err ("Failed to run accessibility audit: " ++ e))) ∧
    (∀ accExec', (auditPhase audits accExec' exec actions).dynamicContent
        = (auditPhase audits accExec exec actions).dynamicContent) ∧
    (∀ exec' actions',
        (auditPhase audits accExec exec' actions').accessibility
          = (auditPhase audits accExec exec actions).accessibility) ∧
    (runDynamicContent exec actions).length = actions.length ∧
    (∀ (i : Nat) (h₁ : i < (runDynamicContent exec actions).length)
        (h₂ : i < actions.length),
        (runDynamicContent exec actions)[i] = runAction exec actions[i]) ∧
    (∀ a : DynAction, a.type = "" ∨ a.selector = "" →
        runAction exec a = .err a "Invalid action: missing type or selector") ∧
    (∀ (a : DynAction) (r : Nat),
        a.type = "click" ∨ a.type = "focus" ∨ a.type = "hover" →
        a.selector ≠ "" → exec a = .ok r → runAction exec a = .ok a r) := by
  refine ⟨?_, ?_, ?_, ?_, ?_, ?_, ?_⟩
  · intro hmem e he
    simp [auditPhase, runAccessibility, hmem, he]
  · intro accExec'
    simp [auditPhase]
  · intro exec' actions'
    simp [auditPhase]
  · simp [runDynamicContent]
  · intro i h₁ h₂
    simp [runDynamicContent]
  · intro a h
    unfold runAction
    rw [if_pos h]
  · intro a r ht hs hex
    unfold runAction
    rw [if_neg ?_, if_pos ht, hex]
    rintro (hc | hc)
    · rcases ht with h | h | h <;> rw [h] at hc <;> exact absurd hc (by decide)
    · exact hs hc

/-- An action with no type, rejected by the loop's structure validation. -/
def invalidAct : DynAction := ⟨"", "#btn", ""⟩

/-- A well-formed click action. -/
def clickAct : DynAction := ⟨"click", "#ok", ""⟩

/-- An interaction oracle where every action succeeds with payload 7. -/
def execAll7 : DynAction → Except String Nat := fun _ => .ok 7

/-- Witness for C3: a failed accessibility audit fills only its slot, and in
a list with one invalid and one valid action the invalid one is recorded as
an error while the valid one still produces its result. -/
theorem audit_isolation_witness :
    (auditPhase ["accessibility", "dynamic-content"] (.error "boom") execAll7
        [invalidAct, clickAct]).accessibility
      = some (.err "Failed to run accessibility audit: boom") ∧
    runDynamicContent execAll7 [invalidAct, clickAct]
      = [.err invalidAct "Invalid action: missing type or selector",
         .ok clickAct 7] := by
  constructor
  · exact (audit_isolation ["accessibility", "dynamic-content"] (.error "boom")
      execAll7 [invalidAct, clickAct]).1 (by decide) "boom" rfl
  · have hinv := (audit_isolation [] (.error "boom") execAll7 []).2.2.2.2.2.1
      invalidAct (Or.inl rfl)
    have hok := (audit_isolation [] (.error "boom") execAll7 []).2.2.2.2.2.2
      clickAct 7 (Or.inl rfl) (by decide) rfl
    simp [runDynamicContent, hinv, hok]

/-- The substrings the `/api/scan` catch block tests for when picking a
status (lines 889-904). -/
def statusNeedles : List String :=
  ["timeout", "took too long", "not found", "ERR_NAME_NOT_RESOLVED",
   "refused", "ERR_CONNECTION_REFUSED", "Maximum concurrent browsers",
   "Invalid"]

theorem navErrorMessage_eq_timeout (url msg : String)
    (h : classifyNav msg = .timeout) :
    navErrorMessage url msg
      = "Website \"" ++ (url ++ "\" took too long to load (tried multiple loading strategies). The site may be slow or having issues. Please try again later.") := by
  unfold navErrorMessage
  rw [h]

theorem navErrorMessage_eq_dns (url msg : String)
    (h : classifyNav msg = .dnsNotFound) :
    navErrorMessage url msg
      = "Website \"" ++ (url ++ "\" not found. Please check the URL and try again.") := by
  unfold navErrorMessage
  rw [h]

theorem navErrorMessage_eq_refused (url msg : String)
    (h : classifyNav msg = .connectionRefused) :
    navErrorMessage url msg
      = "Connection to \"" ++ (url ++ "\" was refused. The website may be down or blocking automated access.") := by
  unfold navErrorMessage
  rw [h]

theorem scanErrorStatus_of_no_needle (M : String)
    (h : ∀ n ∈ statusNeedles, strIncludes M n = false) :
    scanErrorStatus M = 500 := by
  have h₁ := h "timeout" (by simp [statusNeedles])
  have h₂ := h "took too long" (by simp [statusNeedles])
  have h₃ := h "not found" (by simp [statusNeedles])
  have h₄ := h "ERR_NAME_NOT_RESOLVED" (by simp [statusNeedles])
  have h₅ := h "refused" (by simp [statusNeedles])
  have h₆ := h "ERR_CONNECTION_REFUSED" (by simp [statusNeedles])
  have h₇ := h "Maximum concurrent browsers" (by simp [statusNeedles])
  have h₈ := h "Invalid" (by simp [statusNeedles])
  unfold scanErrorStatus
  rw [if_neg (by rw [h₁, h₂]; simp), if_neg (by rw [h₃, h₄]; simp),
    if_neg (by rw [h₅, h₆]; simp), if_neg (by rw [h₇]; simp),
    if_neg (by rw [h₈]; simp)]

/-- C2 (amended): when all three strategies fail, the error is classified by
substring matching into timeout, dns-not-found, connection-refused,
tls-error, redirect-loop or other.  The `/api/scan` status is also picked by
substring matching on the re-thrown message, so the spec's 408/404/503/500/
500/500 table holds whenever the scanned URL (and, for the `other` class,
the wrapped underlying message) does not itself contain an earlier trigger
substring: timeout maps to 408 unconditionally, dns-not-found to 404,
connection-refused to 503, and tls-error, redirect-loop and other to 500,
and the error response body never has an `accessibility` entry. -/
theorem nav_error_status_mapping (url msg : String) :
    (classifyNav msg = .timeout →
        scanErrorStatus (navErrorMessage url msg) = 408) ∧
    (classifyNav msg = .dnsNotFound →
        strIncludes (navErrorMessage url msg) "timeout" = false →
        strIncludes (navErrorMessage url msg) "took too long" = false →
        scanErrorStatus (navErrorMessage url msg) = 404) ∧
    (classifyNav msg = .connectionRefused →
        strIncludes (navErrorMessage url msg) "timeout" = false →
        strIncludes (navErrorMessage url msg) "took too long" = false →
        strIncludes (navErrorMessage url msg) "not found" = false →
        strIncludes (navErrorMessage url msg) "ERR_NAME_NOT_RESOLVED" = false →
        scanErrorStatus (navErrorMessage url msg) = 503) ∧
    (classifyNav msg = .tlsError →
        (∀ n ∈ statusNeedles, strIncludes (navErrorMessage url msg) n = false) →
        scanErrorStatus (navErrorMessage url msg) = 500) ∧
    (classifyNav msg = .redirectLoop →
        (∀ n ∈ statusNeedles, strIncludes (navErrorMessage url msg) n = false) →
        scanErrorStatus (navErrorMessage url msg) = 500) ∧
    (classifyNav msg = .other →
        (∀ n ∈ statusNeedles, strIncludes (navErrorMessage url msg) n = false) →
        scanErrorStatus (navErrorMessage url msg) = 500) ∧
    "accessibility" ∉ scanErrorBodyKeys := by
  refine ⟨?_, ?_, ?_, ?_, ?_, ?_, by simp [scanErrorBodyKeys]⟩
  · intro hcls
    rw [navErrorMessage_eq_timeout url msg hcls]
    have h₂ : strIncludes
        ("Website \"" ++ (url ++ "\" took too long to load (tried multiple loading strategies). The site may be slow or having issues. Please try again later."))
        "took too long" = true :=
      strIncludes_append_right _ _ _ (strIncludes_append_right _ _ _ (by decide))
    unfold scanErrorStatus
    rw [if_pos (by rw [h₂, Bool.or_true])]
  · intro hcls h₁ h₂
    rw [navErrorMessage_eq_dns url msg hcls] at h₁ h₂ ⊢
    have h₃ : strIncludes
        ("Website \"" ++ (url ++ "\" not found. Please check the URL and try again."))
        "not found" = true :=
      strIncludes_append_right _ _ _ (strIncludes_append_right _ _ _ (by decide))
    unfold scanErrorStatus
    rw [if_neg (by rw [h₁, h₂]; simp), if_pos (by rw [h₃, Bool.true_or])]
  · intro hcls h₁ h₂ h₃ h₄
    rw [navErrorMessage_eq_refused url msg hcls] at h₁ h₂ h₃ h₄ ⊢
    have h₅ : strIncludes
        ("Connection to \"" ++ (url ++ "\" was refused. The website may be down or blocking automated access."))
        "refused" = true :=
      strIncludes_append_right _ _ _ (strIncludes_append_right _ _ _ (by decide))
    unfold scanErrorStatus
    rw [if_neg (by rw [h₁, h₂]; simp), if_neg (by rw [h₃, h₄]; simp),
      if_pos (by rw [h₅, Bool.true_or])]
  · intro hcls h
    exact scanErrorStatus_of_no_needle _ h
  · intro hcls h
    exact scanErrorStatus_of_no_needle _ h
  · intro hcls h
    exact scanErrorStatus_of_no_needle _ h

/-- Witness for C2 on the spec's scenario: a DNS failure for
`https://dns-invalid.invalid` is classified dns-not-found, gets HTTP 404,
and the error body has no `accessibility` entry. -/
theorem nav_error_status_mapping_witness :
    classifyNav "net::ERR_NAME_NOT_RESOLVED" = NavKind.dnsNotFound ∧
    scanErrorStatus
        (navErrorMessage "https://dns-invalid.invalid" "net::ERR_NAME_NOT_RESOLVED")
      = 404 ∧
    "accessibility" ∉ scanErrorBodyKeys :=
  ⟨by decide,
   (nav_error_status_mapping "https://dns-invalid.invalid"
      "net::ERR_NAME_NOT_RESOLVED").2.1 (by decide) (by decide) (by decide),
   (nav_error_status_mapping "https://dns-invalid.invalid"
      "net::ERR_NAME_NOT_RESOLVED").2.2.2.2.2.2⟩

/-- Counterexample to C2 as stated: an underlying failure message
`refused by peer` is classified `other`, but because the wrapping keeps the
underlying message inside the re-thrown error, the `/api/scan` catch block
matches `refused` and answers 503, not the claimed 500. -/
theorem nav_error_status_counterexample :
    classifyNav "refused by peer" = NavKind.other ∧
    scanErrorStatus (navErrorMessage "https://example.com" "refused by peer")
      = 503 ∧
    scanErrorStatus (navErrorMessage "https://example.com" "refused by peer")
      ≠ 500 :=
  ⟨by decide, by decide, by decide⟩

theorem find?_key_filter_ne {α : Type} (m : List (String × α)) (id : String) :
    List.find? (fun p => p.1 == id) (m.filter (fun p => p.1 != id)) = none := by
  rw [List.find?_eq_none]
  intro x hx
  rw [List.mem_filter] at hx
  simpa using hx.2

theorem find?_filter_imp {α : Type} (l : List α) (p q : α → Bool)
    (h : ∀ a, p a = true → q a = true) :
    List.find? p (l.filter q) = List.find? p l := by
  induction l with
  | nil => rfl
  | cons a t ih =>
      by_cases hq : q a = true
      · rw [List.filter_cons_of_pos hq]
        by_cases hp : p a = true
        · rw [List.find?_cons_of_pos _ hp, List.find?_cons_of_pos _ hp]
        · rw [List.find?_cons_of_neg _ hp, List.find?_cons_of_neg _ hp, ih]
      · have hp : ¬p a = true := fun hpa => hq (h a hpa)
        rw [List.filter_cons_of_neg hq, List.find?_cons_of_neg _ hp, ih]

theorem find?_set_self {α : Type} (l : List (String × α)) (k : String) (v : α) :
    List.find? (fun p => p.1 == k) (l.filter (fun p => p.1 != k) ++ [(k, v)])
      = some (k, v) := by
  rw [List.find?_append, find?_key_filter_ne]
  rw [List.find?_cons_of_pos _ (by simp)]
  rfl

theorem find?_set_ne {α : Type} (l : List (String × α)) (k k' : String) (v : α)
    (h : k ≠ k') :
    List.find? (fun p => p.1 == k') (l.filter (fun p => p.1 != k) ++ [(k, v)])
      = List.find? (fun p => p.1 == k') l := by
  rw [List.find?_append, find?_filter_imp l _ _ ?_]
  · rw [List.find?_cons_of_neg _ (by simp [h]), List.find?_nil, Option.or_none]
  · intro a ha
    simp only [beq_iff_eq] at ha
    simp [ha, Ne.symm h]

theorem objGet_set_self (o : Obj) (k : String) (v : JVal) :
    objGet (objSet o k v) k = some v := by
  unfold objGet objSet
  rw [find?_set_self]
  rfl

theorem objGet_set_ne (o : Obj) (k k' : String) (v : JVal) (h : k ≠ k') :
    objGet (objSet o k v) k' = objGet o k' := by
  unfold objGet objSet
  rw [find?_set_ne _ _ _ _ h]

theorem objGet_remove_self (o : Obj) (k : String) :
    objGet (objRemove o k) k = none := by
  unfold objGet objRemove
  rw [find?_key_filter_ne]
  rfl

theorem objGet_remove_ne (o : Obj) (k k' : String) (h : k ≠ k') :
    objGet (objRemove o k) k' = objGet o k' := by
  unfold objGet objRemove
  rw [find?_filter_imp _ _ _ ?_]
  intro a ha
  simp only [beq_iff_eq] at ha
  simp [ha, Ne.symm h]

theorem storeGet_set_self (m : ReportStore) (id : String) (r : Obj) :
    storeGet (storeSet m id r) id = some r := by
  unfold storeGet storeSet
  rw [find?_set_self]
  rfl

theorem sweep_removes_expired (m : ReportStore) (id : String) (r : Obj)
    (now now' : Int) (hts : reportTimestamp r = some now)
    (h : MAX_REPORT_AGE < now' - now) :
    storeGet (sweepReports (storeSet m id r) now') id = none := by
  unfold storeGet
  rw [List.find?_eq_none.mpr ?_]
  · rfl
  · intro x hx
    unfold sweepReports storeSet at hx
    rw [List.filter_append] at hx
    rcases List.mem_append.mp hx with h₁ | h₂
    · have hne := (List.mem_filter.mp (List.mem_filter.mp h₁).1).2
      simpa using hne
    · rw [List.mem_filter] at h₂
      have hx2 := List.mem_singleton.mp h₂.1
      have hkeep := h₂.2
      subst hx2
      rw [hts] at hkeep
      simp [h] at hkeep

/-- C6 (amended): `get` after `put` within the retention window answers 200
with the stored object minus the server-added `timestamp`/`userAgent`/`ip`
metadata — that is, the client report's fields (for every non-reserved key)
plus the generated `id` — not a value equal to the stored report itself;
`get` of an unknown id, or of an id deleted by the age sweep, is 404. -/
theorem report_roundtrip (m : ReportStore) (report : Obj) (id : String)
    (now : Int) (ua ip : String) :
    getReportEndpoint (postReport m report id now ua ip).1 id
      = (200, some (cleanReport (postReport m report id now ua ip).2)) ∧
    (∀ k, k ≠ "id" → k ≠ "timestamp" → k ≠ "userAgent" → k ≠ "ip" →
        objGet (cleanReport (postReport m report id now ua ip).2) k
          = objGet report k) ∧
    objGet (cleanReport (postReport m report id now ua ip).2) "id"
      = some (.str id) ∧
    (∀ (s : ReportStore) (id' : String), storeGet s id' = none →
        getReportEndpoint s id' = (404, none)) ∧
    (∀ now' : Int, MAX_REPORT_AGE < now' - now →
        getReportEndpoint
            (sweepReports (postReport m report id now ua ip).1 now') id
          = (404, none)) := by
  refine ⟨?_, ?_, ?_, ?_, ?_⟩
  · have h : getReportEndpoint
        (storeSet m id (postReport m report id now ua ip).2) id
        = (200, some (cleanReport (postReport m report id now ua ip).2)) := by
      unfold getReportEndpoint
      rw [storeGet_set_self]
    exact h
  · intro k h₁ h₂ h₃ h₄
    show objGet (cleanReport (objSet (objSet (objSet
        (objSet report "id" (JVal.str id)) "timestamp" (JVal.num now))
        "userAgent" (JVal.str ua)) "ip" (JVal.str ip))) k = objGet report k
    unfold cleanReport
    rw [objGet_remove_ne _ _ _ (Ne.symm h₄), objGet_remove_ne _ _ _ (Ne.symm h₃),
      objGet_remove_ne _ _ _ (Ne.symm h₂), objGet_set_ne _ _ _ _ (Ne.symm h₄),
      objGet_set_ne _ _ _ _ (Ne.symm h₃), objGet_set_ne _ _ _ _ (Ne.symm h₂),
      objGet_set_ne _ _ _ _ (Ne.symm h₁)]
  · show objGet (cleanReport (objSet (objSet (objSet
        (objSet report "id" (JVal.str id)) "timestamp" (JVal.num now))
        "userAgent" (JVal.str ua)) "ip" (JVal.str ip))) "id" = some (.str id)
    unfold cleanReport
    rw [objGet_remove_ne _ _ _ (by decide), objGet_remove_ne _ _ _ (by decide),
      objGet_remove_ne _ _ _ (by decide), objGet_set_ne _ _ _ _ (by decide),
      objGet_set_ne _ _ _ _ (by decide), objGet_set_ne _ _ _ _ (by decide),
      objGet_set_self]
  · intro s id' h
    unfold getReportEndpoint
    rw [h]
  · intro now' h
    have hget : objGet (postReport m report id now ua ip).2 "timestamp"
        = some (JVal.num now) := by
      show objGet (objSet (objSet (objSet
          (objSet report "id" (JVal.str id)) "timestamp" (JVal.num now))
          "userAgent" (JVal.str ua)) "ip" (JVal.str ip)) "timestamp" = _
      rw [objGet_set_ne _ _ _ _ (by decide), objGet_set_ne _ _ _ _ (by decide),
        objGet_set_self]
    have hts : reportTimestamp (postReport m report id now ua ip).2 = some now := by
      unfold reportTimestamp
      rw [hget]
    have h₁ : (postReport m report id now ua ip).1
        = storeSet m id (postReport m report id now ua ip).2 := rfl
    rw [h₁]
    have hnone := sweep_removes_expired m id _ now now' hts h
    unfold getReportEndpoint
    rw [hnone]

/-- A client report as used by the C6 witness and counterexample. -/
def reportA : Obj := [("url", JVal.str "https://a.example")]

/-- Witness for C6: a stored report is retrievable with status 200, its
`url` field survives the round trip, and after the age sweep one full
retention period later the id answers 404. -/
theorem report_roundtrip_witness :
    getReportEndpoint (postReport [] reportA "id7" 0 "UA" "9.9.9.9").1 "id7"
      = (200, some (cleanReport (postReport [] reportA "id7" 0 "UA" "9.9.9.9").2)) ∧
    objGet (cleanReport (postReport [] reportA "id7" 0 "UA" "9.9.9.9").2) "url"
      = objGet reportA "url" ∧
    getReportEndpoint
        (sweepReports (postReport [] reportA "id7" 0 "UA" "9.9.9.9").1
          (2 * MAX_REPORT_AGE)) "id7"
      = (404, none) :=
  ⟨(report_roundtrip [] reportA "id7" 0 "UA" "9.9.9.9").1,
   (report_roundtrip [] reportA "id7" 0 "UA" "9.9.9.9").2.1 "url"
     (by decide) (by decide) (by decide) (by decide),
   (report_roundtrip [] reportA "id7" 0 "UA" "9.9.9.9").2.2.2.2
     (2 * MAX_REPORT_AGE) (by decide)⟩

/-- Counterexample to C6 as stated: the value returned by `get` is not equal
to the stored report — the server-added `timestamp`, `userAgent` and `ip`
fields have been stripped from it. -/
theorem report_roundtrip_counterexample :
    (getReportEndpoint (postReport [] reportA "abc123" 1000 "UA" "1.2.3.4").1
        "abc123").2
      ≠ some (postReport [] reportA "abc123" 1000 "UA" "1.2.3.4").2 := by
  decide

theorem filter_ne_of_no_key {α : Type} (o : List (String × α)) (k : String)
    (h : ∀ p ∈ o, p.1 ≠ k) : o.filter (fun p => p.1 != k) = o :=
  List.filter_eq_self.mpr fun a ha => by simpa using h a ha

theorem filter_key_cons_pos {α : Type} (k k' : String) (v : α)
    (l : List (String × α)) (h : k ≠ k') :
    List.filter (fun p => p.1 != k') ((k, v) :: l)
      = (k, v) :: List.filter (fun p => p.1 != k') l :=
  List.filter_cons_of_pos (by simpa using h)

theorem filter_key_cons_neg {α : Type} (k : String) (v : α)
    (l : List (String × α)) :
    List.filter (fun p => p.1 != k) ((k, v) :: l)
      = List.filter (fun p => p.1 != k) l :=
  List.filter_cons_of_neg (by simp)

theorem clean_meta_chain (report : Obj) (id : String) (now : Int)
    (ua ip : String)
    (hres : ∀ p ∈ report,
      p.1 ≠ "id" ∧ p.1 ≠ "timestamp" ∧ p.1 ≠ "userAgent" ∧ p.1 ≠ "ip") :
    cleanReport (objSet (objSet (objSet (objSet report "id" (JVal.str id))
        "timestamp" (JVal.num now)) "userAgent" (JVal.str ua)) "ip"
        (JVal.str ip))
      = report ++ [("id", JVal.str id)] := by
  have rid := filter_ne_of_no_key report "id" fun p hp => (hres p hp).1
  have rts := filter_ne_of_no_key report "timestamp" fun p hp => (hres p hp).2.1
  have rua := filter_ne_of_no_key report "userAgent" fun p hp => (hres p hp).2.2.1
  have rip := filter_ne_of_no_key report "ip" fun p hp => (hres p hp).2.2.2
  have hA : objSet report "id" (JVal.str id) = report ++ [("id", JVal.str id)] := by
    unfold objSet
    rw [rid]
  have hB : objSet (report ++ [("id", JVal.str id)]) "timestamp" (JVal.num now)
      = report ++ [("id", JVal.str id), ("timestamp", JVal.num now)] := by
    unfold objSet
    rw [List.filter_append, rts, filter_key_cons_pos _ _ _ _ (by decide),
      List.filter_nil]
    simp
  have hC : objSet (report ++ [("id", JVal.str id), ("timestamp", JVal.num now)])
        "userAgent" (JVal.str ua)
      = report ++ [("id", JVal.str id), ("timestamp", JVal.num now),
          ("userAgent", JVal.str ua)] := by
    unfold objSet
    rw [List.filter_append, rua, filter_key_cons_pos _ _ _ _ (by decide),
      filter_key_cons_pos _ _ _ _ (by decide), List.filter_nil]
    simp
  have hD : objSet (report ++ [("id", JVal.str id), ("timestamp", JVal.num now),
        ("userAgent", JVal.str ua)]) "ip" (JVal.str ip)
      = report ++ [("id", JVal.str id), ("timestamp", JVal.num now),
          ("userAgent", JVal.str ua), ("ip", JVal.str ip)] := by
    unfold objSet
    rw [List.filter_append, rip, filter_key_cons_pos _ _ _ _ (by decide),
      filter_key_cons_pos _ _ _ _ (by decide),
      filter_key_cons_pos _ _ _ _ (by decide), List.filter_nil]
    simp
  rw [hA, hB, hC, hD]
  have hR1 : List.filter (fun p => p.1 != "timestamp")
        (report ++ [("id", JVal.str id), ("timestamp", JVal.num now),
          ("userAgent", JVal.str ua), ("ip", JVal.str ip)])
      = report ++ [("id", JVal.str id), ("userAgent", JVal.str ua),
          ("ip", JVal.str ip)] := by
    rw [List.filter_append, rts, filter_key_cons_pos _ _ _ _ (by decide),
      filter_key_cons_neg, filter_key_cons_pos _ _ _ _ (by decide),
      filter_key_cons_pos _ _ _ _ (by decide), List.filter_nil]
  have hR2 : List.filter (fun p => p.1 != "userAgent")
        (report ++ [("id", JVal.str id), ("userAgent", JVal.str ua),
          ("ip", JVal.str ip)])
      = report ++ [("id", JVal.str id), ("ip", JVal.str ip)] := by
    rw [List.filter_append, rua, filter_key_cons_pos _ _ _ _ (by decide),
      filter_key_cons_neg, filter_key_cons_pos _ _ _ _ (by decide),
      List.filter_nil]
  have hR3 : List.filter (fun p => p.1 != "ip")
        (report ++ [("id", JVal.str id), ("ip", JVal.str ip)])
      = report ++ [("id", JVal.str id)] := by
    rw [List.filter_append, rip, filter_key_cons_pos _ _ _ _ (by decide),
      filter_key_cons_neg, List.filter_nil]
  unfold cleanReport objRemove
  rw [hR1, hR2, hR3]

/-- C10 (amended): the store records server-added `timestamp`, `userAgent`
and `ip` metadata alongside the client fields, and retrieval strips exactly
those three keys (they are absent from every retrieved value, every other
key is untouched); consequently, for client reports using none of the
reserved keys `id`/`timestamp`/`userAgent`/`ip`, the retrieved value is
exactly the client report plus the generated id.  (For reports that do use
a reserved key, the server-set value wins and the stripped keys are lost,
which is what the counterexample exhibits.) -/
theorem report_metadata_privacy (m : ReportStore) (report : Obj) (id : String)
    (now : Int) (ua ip : String) :
    objGet (postReport m report id now ua ip).2 "timestamp"
      = some (.num now) ∧
    objGet (postReport m report id now ua ip).2 "userAgent"
      = some (.str ua) ∧
    objGet (postReport m report id now ua ip).2 "ip" = some (.str ip) ∧
    (∀ r : Obj, objGet (cleanReport r) "timestamp" = none ∧
        objGet (cleanReport r) "userAgent" = none ∧
        objGet (cleanReport r) "ip" = none) ∧
    (∀ (r : Obj) (k : String), k ≠ "timestamp" → k ≠ "userAgent" → k ≠ "ip" →
        objGet (cleanReport r) k = objGet r k) ∧
    ((∀ p ∈ report,
        p.1 ≠ "id" ∧ p.1 ≠ "timestamp" ∧ p.1 ≠ "userAgent" ∧ p.1 ≠ "ip") →
      (getReportEndpoint (postReport m report id now ua ip).1 id).2
        = some (report ++ [("id", JVal.str id)])) := by
  refine ⟨?_, ?_, ?_, ?_, ?_, ?_⟩
  · show objGet (objSet (objSet (objSet (objSet report "id" (JVal.str id))
        "timestamp" (JVal.num now)) "userAgent" (JVal.str ua)) "ip"
        (JVal.str ip)) "timestamp" = some (JVal.num now)
    rw [objGet_set_ne _ _ _ _ (by decide), objGet_set_ne _ _ _ _ (by decide),
      objGet_set_self]
  · show objGet (objSet (objSet (objSet (objSet report "id" (JVal.str id))
        "timestamp" (JVal.num now)) "userAgent" (JVal.str ua)) "ip"
        (JVal.str ip)) "userAgent" = some (JVal.str ua)
    rw [objGet_set_ne _ _ _ _ (by decide), objGet_set_self]
  · show objGet (objSet (objSet (objSet (objSet report "id" (JVal.str id))
        "timestamp" (JVal.num now)) "userAgent" (JVal.str ua)) "ip"
        (JVal.str ip)) "ip" = some (JVal.str ip)
    rw [objGet_set_self]
  · intro r
    unfold cleanReport
    refine ⟨?_, ?_, ?_⟩
    · rw [objGet_remove_ne _ _ _ (by decide), objGet_remove_ne _ _ _ (by decide),
        objGet_remove_self]
    · rw [objGet_remove_ne _ _ _ (by decide), objGet_remove_self]
    · rw [objGet_remove_self]
  · intro r k h₁ h₂ h₃
    unfold cleanReport
    rw [objGet_remove_ne _ _ _ (Ne.symm h₃), objGet_remove_ne _ _ _ (Ne.symm h₂),
      objGet_remove_ne _ _ _ (Ne.symm h₁)]
  · intro hres
    have hend : getReportEndpoint
        (storeSet m id (postReport m report id now ua ip).2) id
        = (200, some (cleanReport (postReport m report id now ua ip).2)) := by
      unfold getReportEndpoint
      rw [storeGet_set_self]
    have h₂ : (getReportEndpoint (postReport m report id now ua ip).1 id).2
        = some (cleanReport (postReport m report id now ua ip).2) :=
      congrArg Prod.snd hend
    rw [h₂]
    have hc : cleanReport (postReport m report id now ua ip).2
        = report ++ [("id", JVal.str id)] :=
      clean_meta_chain report id now ua ip hres
    rw [hc]

/-- Witness for C10 on a reserved-key-free client report. -/
theorem report_metadata_privacy_witness :
    (getReportEndpoint
        (postReport [] [("url", JVal.str "u")] "id9" 7 "UA" "9.9.9.9").1
        "id9").2
      = some ([("url", JVal.str "u")] ++ [("id", JVal.str "id9")]) :=
  (report_metadata_privacy [] [("url", JVal.str "u")] "id9" 7 "UA"
    "9.9.9.9").2.2.2.2.2 (by decide)

/-- A client report that itself carries a `timestamp` field. -/
def reportB : Obj :=
  [("url", JVal.str "https://a.example"), ("timestamp", JVal.str "client")]

/-- Counterexample to C10 as stated: for a client report carrying its own
`timestamp` field, the retrieved value is not the client report plus the
generated id — the client's `timestamp` field was overwritten by the server
and then stripped. -/
theorem report_metadata_privacy_counterexample :
    (getReportEndpoint (postReport [] reportB "abc123" 1000 "UA" "1.2.3.4").1
        "abc123").2
      ≠ some (reportB ++ [("id", JVal.str "abc123")]) := by
  decide
